import Mathlib

/-!
Verification development for the MES-Excel-Dashboard repository
(`src/app.py`, a Streamlit analytics dashboard over a daily CSV dataset).

The Python source is shallowly embedded below:

* calendar dates (`datetime.date` / day-granular `datetime` values) become the
  `Date` structure, ordered lexicographically as Python orders dates, with
  `timedelta` day arithmetic carried out through the standard civil-calendar
  rata-die conversion (`daysFromCivil` / `civilFromDays`);
* the dataframe becomes a column-name list plus a per-column list of
  (date, value) rows; numeric cell values are modelled as exact integers
  (the arithmetic in the program is exact summation and subtraction);
* pandas `df.resample(rule).sum()` becomes `resample`, which maps each row
  date to a dense integer period index (day number for `D`, Sunday-ending
  week number for `W`, month number for `M`, quarter number for `Q`),
  enumerates every period between the smallest and largest index of the
  data (empty periods included, summing to zero) and sums the column per
  period — matching how pandas produces one labelled bucket per calendar
  period from the data minimum to the data maximum;
* Streamlit UI calls (`st.warning`, `st.bar_chart`, `st.area_chart`,
  `st.markdown`) become `RenderEffect` values; file reading becomes an
  `Option String` of the file contents, `none` for a missing file, and an
  uncaught Python exception becomes `Except.error`;
* the session-state navigation (`st.session_state.page` / `metric_page` /
  `section`) becomes `NavState`, and the conditionally rendered sidebar
  buttons become `NavEvent`s acted on by `nav_step`.
-/

/-- A calendar date, as Python `datetime.date` (year, month, day). -/
structure Date where
  year : Int
  month : Int
  day : Int
deriving DecidableEq

/-- Python orders dates lexicographically by (year, month, day); this is
`date1 < date2`. -/
def Date.lt (a b : Date) : Bool :=
  decide (a.year < b.year ∨ (a.year = b.year ∧
    (a.month < b.month ∨ (a.month = b.month ∧ a.day < b.day))))

/-- Python `date1 <= date2`. -/
def Date.le (a b : Date) : Bool :=
  Date.lt a b || decide (a = b)

/-- Days since 1970-01-01 of a civil date (standard rata-die conversion,
Gregorian calendar); this is the day count that Python `timedelta`
arithmetic on dates advances by one per day. -/
def daysFromCivil (dt : Date) : Int :=
  let y : Int := if dt.month ≤ 2 then dt.year - 1 else dt.year
  let era : Int := Int.fdiv y 400
  let yoe : Int := y - era * 400
  let mp : Int := Int.emod (dt.month + 9) 12
  let doy : Int := Int.fdiv (153 * mp + 2) 5 + dt.day - 1
  let doe : Int := yoe * 365 + Int.fdiv yoe 4 - Int.fdiv yoe 100 + doy
  era * 146097 + doe - 719468

/-- Inverse of `daysFromCivil`: the civil date of a day number (standard
civil-from-days conversion, Gregorian calendar). -/
def civilFromDays (z0 : Int) : Date :=
  let z : Int := z0 + 719468
  let era : Int := Int.fdiv z 146097
  let doe : Int := z - era * 146097
  let yoe : Int :=
    Int.fdiv (doe - Int.fdiv doe 1460 + Int.fdiv doe 36524 - Int.fdiv doe 146096) 365
  let y : Int := yoe + era * 400
  let doy : Int := doe - (365 * yoe + Int.fdiv yoe 4 - Int.fdiv yoe 100)
  let mp : Int := Int.fdiv (5 * doy + 2) 153
  let d : Int := doy - Int.fdiv (153 * mp + 2) 5 + 1
  let m : Int := mp + (if mp < 10 then 3 else -9)
  { year := if m ≤ 2 then y + 1 else y, month := m, day := d }

/-- Python `date + timedelta(days=n)`: civil-calendar day arithmetic. -/
def addDays (dt : Date) (n : Int) : Date :=
  civilFromDays (daysFromCivil dt + n)

/-- Embedding of `is_period_complete(date, freq)` (src/app.py lines 48-62).
The wall clock `datetime.now()` is passed explicitly as `today`; `datetime`
values are modelled at day granularity (the data is daily). -/
def is_period_complete (today : Date) (date : Date) (freq : String) : Bool :=
  if freq = "D" then
    Date.lt date today
  else if freq = "W" then
    Date.lt (addDays date 6) today
  else if freq = "M" then
    let next_month := addDays { date with day := 28 } 4
    Date.le { next_month with day := 1 } today
  else if freq = "Q" then
    let current_month := Int.fdiv (today.month - 1) 3 * 3 + 1
    Date.lt date { year := today.year, month := current_month, day := 1 }
  else
    true

/-- The dense integer index of the resampling period that a date falls in,
for a pandas resample rule:
`"D"` the day number, `"W"` the number of the Sunday-ending week
(pandas `W` is `W-SUN`; 1970-01-01 is a Thursday, so Sundays are day
numbers congruent to 3 mod 7), `"M"` the month number, `"Q"` the quarter
number.  Consecutive calendar periods get consecutive indices, so pandas
bucket labels correspond one-to-one and in order to these indices. -/
def period_index (rule : String) (dt : Date) : Int :=
  if rule = "Q" then dt.year * 4 + Int.fdiv (dt.month - 1) 3
  else if rule = "M" then dt.year * 12 + (dt.month - 1)
  else if rule = "W" then Int.fdiv (daysFromCivil dt + 3) 7
  else daysFromCivil dt

/-- All period indices from `lo` to `hi` inclusive, in order. -/
def bucket_range (lo hi : Int) : List Int :=
  (List.range ((hi - lo).toNat + 1)).map (fun j : Nat => lo + (j : Int))

/-- Embedding of pandas `df.resample(rule).sum()` on one numeric column:
one bucket per calendar period from the smallest period touched by the
data to the largest, each holding the sum of the values whose date falls
in that period; periods with no rows are kept with sum 0.  An empty frame
resamples to no buckets. -/
def resample (rule : String) (rows : List (Date × Int)) : List (Int × Int) :=
  match rows with
  | [] => []
  | r :: rs =>
    let idx := fun (x : Date × Int) => period_index rule x.1
    let lo := rs.foldl (fun m x => min m (idx x)) (idx r)
    let hi := rs.foldl (fun m x => max m (idx x)) (idx r)
    (bucket_range lo hi).map (fun k =>
      (k, (((r :: rs).filter (fun x => idx x = k)).map Prod.snd).sum))

/-- A user-visible Streamlit output produced while rendering. -/
inductive RenderEffect where
  | warning (msg : String)
  | barChart (data : List (Int × Int))
  | areaChart (data : List (Int × Int))
  | markdown (body : String)
deriving DecidableEq

/-- The loaded dataframe, viewed per numeric column: the column names of
the frame and, for each column name, its (DATE, value) rows (all columns
share the same DATE index; a name outside `cols` has no rows). -/
structure DF where
  cols : List String
  col : String → List (Date × Int)

/-- The `if time_frame == ...` chain of `create_metric_chart`
(src/app.py lines 67-74) choosing the pandas resample rule; any other
time frame falls through to daily. -/
def freq_rule (time_frame : String) : String :=
  if time_frame = "Quarterly" then "Q"
  else if time_frame = "Monthly" then "M"
  else if time_frame = "Weekly" then "W"
  else "D"

/-- Embedding of `create_metric_chart(df, column, chart_type, time_frame)`
(src/app.py lines 64-85): resample the frame at the selected granularity,
warn and stop if the requested column is absent, otherwise emit the bar or
area chart of that column (and nothing for any other chart type). -/
def create_metric_chart (df : DF) (column : String) (chart_type : String)
    (time_frame : String) : List RenderEffect :=
  let df_resampled := fun c => resample (freq_rule time_frame) (df.col c)
  if column ∉ df.cols then
    [RenderEffect.warning ("Column \x27" ++ column ++ "\x27 not found for chart.")]
  else
    let chart_data := df_resampled column
    if chart_type = "Bar" then [RenderEffect.barChart chart_data]
    else if chart_type = "Area" then [RenderEffect.areaChart chart_data]
    else []

/-- The shared sidebar filter settings (src/app.py lines 159-174):
widgets keyed `start_date`, `end_date`, `time_frame`, `chart_type` in
`st.session_state`. -/
structure FilterState where
  start_date : Date
  end_date : Date
  time_frame : String
  chart_type : String

/-- What one chart render produces for a metric column under the current
filter settings: the program passes the full loaded frame together with
`st.session_state.chart_type` and `st.session_state.time_frame` to
`create_metric_chart` (src/app.py lines 101-107 and 214). -/
def rendered_metric_chart (df : DF) (column : String) (fs : FilterState) :
    List RenderEffect :=
  create_metric_chart df column fs.chart_type fs.time_frame

/-- Embedding of `calculate_delta(df, column)` (src/app.py lines 39-46),
applied to the value list of the selected column (its length is the row
count of the frame).  The percent is the exact value of the Python float
expression `(delta / previous_value) * 100`. -/
def calculate_delta (column_values : List Int) : Int × ℚ :=
  if column_values.length < 2 then (0, 0)
  else
    match column_values.reverse with
    | current_value :: previous_value :: _ =>
      let delta := current_value - previous_value
      let delta_percent : ℚ :=
        if previous_value ≠ 0 then ((delta : ℚ) / (previous_value : ℚ)) * 100 else 0
      (delta, delta_percent)
    | _ => (0, 0)

/-- The (absolute delta, percent delta) that `display_metric_with_button`
shows in its Change line: `calculate_delta(df, column)` applied to the raw
loaded frame (src/app.py line 90). -/
def display_metric_delta (df : DF) (column : String) : Int × ℚ :=
  calculate_delta ((df.col column).map Prod.snd)

/-- Embedding of `local_css(file_name)` (src/app.py lines 22-24): the file
system is modelled by the optional contents of the requested file.  With
contents present the function injects a style block; with the file missing,
Python `open` raises `FileNotFoundError`, which nothing in the script
catches, so the render run fails. -/
def local_css (contents : Option String) : Except String (List RenderEffect) :=
  match contents with
  | some css => Except.ok [RenderEffect.markdown ("<style>" ++ css ++ "</style>")]
  | none => Except.error "FileNotFoundError"

/-- The slug `title.replace(" ", "_").lower()` stored in
`st.session_state.metric_page` (src/app.py line 117). -/
def metric_slug (title : String) : String :=
  (title.replace " " "_").toLower

/-- The navigation part of `st.session_state`: `page`, `metric_page`, and
`section` (the latter is called `active_section` here because `section` is
reserved in Lean). -/
structure NavState where
  page : String
  metric_page : Option String
  active_section : Option String
deriving DecidableEq

/-- A user click on one of the conditionally rendered buttons: the sidebar
buttons (src/app.py lines 126-156) and the per-metric Open button
(src/app.py lines 116-120, rendered on the section pages). -/
inductive NavEvent where
  | clickSection1
  | clickSection2
  | backToWelcome
  | backToSection1
  | backToSection2
  | openMetric (title : String) (sec : String)
deriving DecidableEq

/-- One navigation transition: the handler of the clicked button runs if
that button is currently rendered (the sidebar shows the section buttons
only on the welcome page, the back-to-welcome button only on a section
page, the back-to-section buttons only on the metric page with the
matching recorded section, and the Open buttons only on the section page
passed to `display_metric_with_button`); otherwise the state is unchanged. -/
def nav_step (s : NavState) (e : NavEvent) : NavState :=
  match e with
  | NavEvent.clickSection1 =>
    if s.page = "welcome" then
      { s with page := "section_1", active_section := some "section_1" }
    else s
  | NavEvent.clickSection2 =>
    if s.page = "welcome" then
      { s with page := "section_2", active_section := some "section_2" }
    else s
  | NavEvent.backToWelcome =>
    if s.page = "section_1" ∨ s.page = "section_2" then
      { s with page := "welcome", active_section := none }
    else s
  | NavEvent.backToSection1 =>
    if s.page = "metric" ∧ s.active_section = some "section_1" then
      { s with page := "section_1", metric_page := none }
    else s
  | NavEvent.backToSection2 =>
    if s.page = "metric" ∧ s.active_section = some "section_2" then
      { s with page := "section_2", metric_page := none }
    else s
  | NavEvent.openMetric title sec =>
    if (s.page = "section_1" ∧ sec = "section_1") ∨
       (s.page = "section_2" ∧ sec = "section_2") then
      { page := "metric", metric_page := some (metric_slug title),
        active_section := some sec }
    else s

/-- The bucket series `df_resampled[[column]]` that `create_metric_chart`
charts (src/app.py line 80). -/
def chart_data (df : DF) (column : String) (time_frame : String) : List (Int × Int) :=
  resample (freq_rule time_frame) (df.col column)

/-- The numeric metric columns of the loaded frame (src/app.py lines 36
and 177-186). -/
def data_columns : List String :=
  ["VIEWS", "WATCH_HOURS", "LIKES", "SHARES", "COMMENTS",
   "SUBSCRIBERS_GAINED", "SUBSCRIBERS_LOST", "NET_SUBSCRIBERS"]

/-- Example frame: two VIEWS observations four days apart. -/
def exDF2 : DF where
  cols := data_columns
  col := fun c => if c = "VIEWS" then [(⟨2024,1,1⟩, 10), (⟨2024,1,5⟩, 20)] else []

/-- Example filter settings whose date range starts after the first
observation of `exDF2`. -/
def exFS2 : FilterState where
  start_date := ⟨2024,1,3⟩
  end_date := ⟨2024,1,5⟩
  time_frame := "Daily"
  chart_type := "Bar"

/-- Example frame: three daily VIEWS observations spanning a Sunday week
boundary (2024-01-07 is a Sunday, so the first two rows share a pandas
`W`-week and the third starts the next week). -/
def exDF3 : DF where
  cols := data_columns
  col := fun c =>
    if c = "VIEWS" then [(⟨2024,1,6⟩, 1), (⟨2024,1,7⟩, 2), (⟨2024,1,8⟩, 4)] else []

theorem foldl_min_lower {α : Type} (f : α → Int) :
    ∀ (l : List α) (a : Int),
      l.foldl (fun m x => min m (f x)) a ≤ a ∧
      ∀ x ∈ l, l.foldl (fun m x => min m (f x)) a ≤ f x := by
  intro l
  induction l with
  | nil => intro a; exact ⟨le_refl a, by intro x hx; cases hx⟩
  | cons b l ih =>
    intro a
    have h := ih (min a (f b))
    refine ⟨le_trans h.1 (min_le_left _ _), ?_⟩
    intro x hx
    rcases List.mem_cons.mp hx with rfl | hx
    · exact le_trans h.1 (min_le_right _ _)
    · exact h.2 x hx

theorem foldl_max_upper {α : Type} (f : α → Int) :
    ∀ (l : List α) (a : Int),
      a ≤ l.foldl (fun m x => max m (f x)) a ∧
      ∀ x ∈ l, f x ≤ l.foldl (fun m x => max m (f x)) a := by
  intro l
  induction l with
  | nil => intro a; exact ⟨le_refl a, by intro x hx; cases hx⟩
  | cons b l ih =>
    intro a
    have h := ih (max a (f b))
    refine ⟨le_trans (le_max_left _ _) h.1, ?_⟩
    intro x hx
    rcases List.mem_cons.mp hx with rfl | hx
    · exact le_trans (le_max_right _ _) h.1
    · exact h.2 x hx

theorem bucket_range_nodup (lo hi : Int) : (bucket_range lo hi).Nodup := by
  have hinj : Function.Injective (fun j : Nat => lo + (j : Int)) := by
    intro a b hab
    dsimp only at hab
    omega
  exact List.Nodup.map hinj (List.nodup_range _)

theorem bucket_range_mem (lo hi k : Int) (h1 : lo ≤ k) (h2 : k ≤ hi) :
    k ∈ bucket_range lo hi := by
  unfold bucket_range
  refine List.mem_map.mpr ⟨(k - lo).toNat, List.mem_range.mpr (by omega), ?_⟩
  dsimp only
  omega

theorem sum_map_ite_of_nodup (a : Int) (v : Int) :
    ∀ (keys : List Int), keys.Nodup → a ∈ keys →
      (keys.map (fun k => if a = k then v else 0)).sum = v := by
  intro keys
  induction keys with
  | nil => intro _ h; cases h
  | cons k ks ih =>
    intro hnd hmem
    have hk := List.nodup_cons.mp hnd
    rcases List.mem_cons.mp hmem with rfl | hmem
    · have hz : (ks.map (fun k => if a = k then v else 0)).sum = 0 := by
        refine List.sum_eq_zero ?_
        intro x hx
        rcases List.mem_map.mp hx with ⟨k2, hk2, rfl⟩
        have hne : a ≠ k2 := fun h => hk.1 (h ▸ hk2)
        simp [hne]
      simp [hz]
    · have hne : a ≠ k := fun he => hk.1 (he ▸ hmem)
      have hrest := ih hk.2 hmem
      simp [hne, hrest]

theorem sum_buckets_eq {α : Type} (key : α → Int) :
    ∀ (rows : List α) (keys : List Int) (val : α → Int), keys.Nodup →
      (∀ r ∈ rows, key r ∈ keys) →
      (keys.map (fun k => ((rows.filter (fun x => key x = k)).map val).sum)).sum
        = (rows.map val).sum := by
  intro rows
  induction rows with
  | nil =>
    intro keys val _ _
    simp
  | cons r rows ih =>
    intro keys val hnd hmem
    have hr : key r ∈ keys := hmem r (List.mem_cons_self r rows)
    have h1 : ∀ k : Int,
        (((r :: rows).filter (fun x => key x = k)).map val).sum
          = (if key r = k then val r else 0)
            + ((rows.filter (fun x => key x = k)).map val).sum := by
      intro k
      by_cases h : key r = k
      · simp [List.filter_cons, h]
      · simp [List.filter_cons, h]
    calc (keys.map (fun k => (((r :: rows).filter (fun x => key x = k)).map val).sum)).sum
        = (keys.map (fun k => (if key r = k then val r else 0)
            + ((rows.filter (fun x => key x = k)).map val).sum)).sum := by
          simp only [h1]
      _ = (keys.map (fun k => if key r = k then val r else 0)).sum
            + (keys.map (fun k => ((rows.filter (fun x => key x = k)).map val).sum)).sum := by
          rw [← List.sum_map_add]
      _ = val r + (rows.map val).sum := by
          rw [sum_map_ite_of_nodup (key r) (val r) keys hnd hr,
              ih keys val hnd (fun x hx => hmem x (List.mem_cons_of_mem r hx))]
      _ = ((r :: rows).map val).sum := by simp

theorem resample_sum_eq (rule : String) (rows : List (Date × Int)) :
    ((resample rule rows).map Prod.snd).sum = (rows.map Prod.snd).sum := by
  match rows with
  | [] => rfl
  | r :: rs =>
    unfold resample
    simp only [List.map_map]
    have hlo := foldl_min_lower (fun x : Date × Int => period_index rule x.1) rs
      (period_index rule r.1)
    have hhi := foldl_max_upper (fun x : Date × Int => period_index rule x.1) rs
      (period_index rule r.1)
    refine sum_buckets_eq (fun x : Date × Int => period_index rule x.1)
      (r :: rs) _ Prod.snd (bucket_range_nodup _ _) ?_
    intro x hx
    rcases List.mem_cons.mp hx with rfl | hx
    · exact bucket_range_mem _ _ _ hlo.1 hhi.1
    · exact bucket_range_mem _ _ _ (hlo.2 x hx) (hhi.2 x hx)

/-- C1: for every dataset, every numeric column, and every granularity in
Daily, Weekly, Monthly, Quarterly, the sum of the column over all
aggregation buckets produced by the period aggregator equals the sum of
the column over all observations in the aggregated range (aggregation is
sum-preserving). -/
theorem C1_aggregation_sum_preserving (df : DF) (column : String) (tf : String)
    (htf : tf = "Daily" ∨ tf = "Weekly" ∨ tf = "Monthly" ∨ tf = "Quarterly") :
    ((chart_data df column tf).map Prod.snd).sum
      = ((df.col column).map Prod.snd).sum := by
  clear htf
  exact resample_sum_eq (freq_rule tf) (df.col column)

/-- Witness for C1 at the Weekly granularity on a concrete three-row frame. -/
theorem C1_aggregation_sum_preserving_witness :
    (("Weekly" = "Daily" ∨ "Weekly" = "Weekly" ∨ "Weekly" = "Monthly"
        ∨ "Weekly" = "Quarterly")
      ∧ ((chart_data exDF3 "VIEWS" "Weekly").map Prod.snd).sum
          = ((exDF3.col "VIEWS").map Prod.snd).sum)
    ∧ ((chart_data exDF3 "VIEWS" "Weekly").map Prod.snd).sum = 7 :=
  ⟨⟨Or.inr (Or.inl rfl),
    C1_aggregation_sum_preserving exDF3 "VIEWS" "Weekly" (Or.inr (Or.inl rfl))⟩,
   by decide⟩

/-- C4: for every input sequence with fewer than two buckets (length 0 or
1) and every column, the delta calculator returns (0, 0) and does not
fail. -/
theorem C4_short_input_delta_zero (column_values : List Int)
    (h : column_values.length < 2) :
    calculate_delta column_values = (0, 0) := by
  unfold calculate_delta
  rw [if_pos h]

/-- Witness for C4 on the empty sequence and a one-element sequence. -/
theorem C4_short_input_delta_zero_witness :
    (([] : List Int).length < 2 ∧ calculate_delta [] = (0, 0))
    ∧ ([(5 : Int)].length < 2 ∧ calculate_delta [5] = (0, 0)) :=
  ⟨⟨by decide, C4_short_input_delta_zero [] (by decide)⟩,
   ⟨by decide, C4_short_input_delta_zero [5] (by decide)⟩⟩

/-- C5: for every input sequence of at least two buckets whose
second-to-last value is exactly zero, the delta calculator returns
percent delta 0 and absolute delta equal to the last value, never
infinity, NaN, or a division-by-zero failure. -/
theorem C5_zero_previous_delta (pre : List Int) (c : Int) :
    calculate_delta (pre ++ [0, c]) = (c, 0) := by
  unfold calculate_delta
  have hlen : ¬ (pre ++ [0, c]).length < 2 := by
    simp only [List.length_append, List.length_cons, List.length_nil]
    omega
  rw [if_neg hlen]
  have hrev : (pre ++ [0, c]).reverse = c :: 0 :: pre.reverse := by
    simp
  rw [hrev]
  simp

/-- C2 (claim fails on the code): the sidebar date inputs keyed
`start_date` and `end_date` are created (src/app.py lines 165-172) but
their values are never used — `create_metric_chart` always receives the
full loaded frame (src/app.py lines 101-107 and 214), so observations
outside the selected range still contribute to the rendered buckets.
Concretely, with observations on 2024-01-01 (value 10) and 2024-01-05
(value 20) and a selected range starting 2024-01-03, the rendered Daily
bar chart still contains the 2024-01-01 bucket with value 10 (day number
19723), and the rendered output is unchanged under any choice of start
and end date. -/
theorem C2_date_filter_not_applied :
    rendered_metric_chart exDF2 "VIEWS" exFS2 =
      [RenderEffect.barChart
        [(19723, 10), (19724, 0), (19725, 0), (19726, 0), (19727, 20)]]
    ∧ daysFromCivil ⟨2024, 1, 1⟩ = 19723
    ∧ Date.lt ⟨2024, 1, 1⟩ exFS2.start_date = true
    ∧ (∀ s e : Date,
        rendered_metric_chart exDF2 "VIEWS"
            { exFS2 with start_date := s, end_date := e }
          = rendered_metric_chart exDF2 "VIEWS" exFS2) := by
  refine ⟨?_, ?_, ?_, fun s e => rfl⟩ <;> decide

/-- C3 fails on the code: at the Weekly granularity on a concrete frame,
the delta shown by `display_metric_with_button` (computed by
`calculate_delta(df, column)` on the raw frame, src/app.py line 90)
differs from the delta computed from the aggregated Weekly bucket
sequence, so the shown delta is not computed from the bucket sequence at
the selected granularity. -/
theorem C3_counterexample :
    (display_metric_delta exDF3 "VIEWS"
        ≠ calculate_delta
            ((resample (freq_rule "Weekly") (exDF3.col "VIEWS")).map Prod.snd))
    ∧ (display_metric_delta exDF3 "VIEWS").1 = 2
    ∧ (calculate_delta
        ((resample (freq_rule "Weekly") (exDF3.col "VIEWS")).map Prod.snd)).1 = 1 := by
  have e1 : (display_metric_delta exDF3 "VIEWS").1 = 2 := by decide
  have e2 : (calculate_delta
      ((resample (freq_rule "Weekly") (exDF3.col "VIEWS")).map Prod.snd)).1 = 1 := by
    decide
  refine ⟨?_, e1, e2⟩
  intro h
  rw [h, e2] at e1
  exact absurd e1 (by decide)

/-- C3 amended: the (absolute delta, percent delta) shown with a metric is
computed from the raw observation rows of the loaded frame — comparing the
last observation to the second-to-last observation — for every selected
granularity, not from the aggregated bucket sequence. -/
theorem C3_delta_from_raw_rows (df : DF) (column : String)
    (pre : List (Date × Int)) (p c : Date × Int)
    (hcol : df.col column = pre ++ [p, c]) :
    display_metric_delta df column =
      (c.2 - p.2,
        if p.2 ≠ 0 then ((c.2 - p.2 : Int) : ℚ) / (p.2 : ℚ) * 100 else 0) := by
  unfold display_metric_delta calculate_delta
  rw [hcol]
  have hlen : ¬ ((pre ++ [p, c]).map Prod.snd).length < 2 := by
    simp only [List.length_map, List.length_append, List.length_cons,
      List.length_nil]
    omega
  rw [if_neg hlen]
  have hrev : ((pre ++ [p, c]).map Prod.snd).reverse
      = c.2 :: p.2 :: (pre.map Prod.snd).reverse := by
    simp
  rw [hrev]

/-- Witness for C3 amended: on the concrete frame the shown delta is
(2, 100): the last raw observation is 4, the second-to-last is 2. -/
theorem C3_delta_from_raw_rows_witness :
    exDF3.col "VIEWS"
      = [(⟨2024,1,6⟩, 1)] ++ [(⟨2024,1,7⟩, 2), (⟨2024,1,8⟩, 4)]
    ∧ display_metric_delta exDF3 "VIEWS" = (2, 100) := by
  refine ⟨by decide, ?_⟩
  rw [C3_delta_from_raw_rows exDF3 "VIEWS" [(⟨2024,1,6⟩, 1)]
    (⟨2024,1,7⟩, 2) (⟨2024,1,8⟩, 4) (by decide)]
  norm_num

/-- C6 fails on the code: `local_css` opens the stylesheet with no
exception handling (src/app.py lines 22-24), so a missing stylesheet
raises `FileNotFoundError`, which nothing catches: the render run fails
rather than warning and continuing. -/
theorem C6_counterexample :
    local_css none = Except.error "FileNotFoundError" := rfl

/-- C6 amended: when the stylesheet file for the active section is
missing, the uncaught `FileNotFoundError` aborts the render (no output is
produced, in particular no warning); only when the file is present does
rendering continue, with the style block injected. -/
theorem C6_missing_stylesheet_fails :
    local_css none = Except.error "FileNotFoundError"
    ∧ (∀ effects : List RenderEffect, local_css none ≠ Except.ok effects)
    ∧ (∀ css : String,
        local_css (some css)
          = Except.ok [RenderEffect.markdown ("<style>" ++ css ++ "</style>")]) := by
  refine ⟨rfl, ?_, ?_⟩
  · intro effects h
    cases h
  · intro css
    rfl

/-- C7 fails as stated: the claim quantifies over every date and says the
Daily check reports the bucket incomplete exactly when the date equals
today, but for a date after today the code also reports incomplete (the
`D` branch tests `date < today`).  Concretely, on 2024-03-15 the bucket
dated 2024-03-16 is reported incomplete although it does not equal
today. -/
theorem C7_counterexample :
    is_period_complete ⟨2024, 3, 15⟩ ⟨2024, 3, 16⟩ "D" = false
    ∧ (⟨2024, 3, 16⟩ : Date) ≠ ⟨2024, 3, 15⟩ := by
  constructor
  · decide
  · decide

/-- C7 amended: for every date on or before today, the Daily
period-completeness check reports the bucket incomplete exactly when the
date equals today (in particular today itself is incomplete and yesterday
is complete). -/
theorem C7_daily_completeness (d t : Date) (h : Date.le d t = true) :
    is_period_complete t d "D" = false ↔ d = t := by
  have h2 : Date.lt d t = true ∨ d = t := by
    unfold Date.le at h
    rcases Bool.or_eq_true_iff.mp h with h | h
    · exact Or.inl h
    · exact Or.inr (of_decide_eq_true h)
  show Date.lt d t = false ↔ d = t
  constructor
  · intro hf
    rcases h2 with hlt | he
    · rw [hlt] at hf
      cases hf
    · exact he
  · intro he
    subst he
    unfold Date.lt
    simp only [decide_eq_false_iff_not]
    omega

/-- Witness for C7 amended: with today 2024-03-15, the bucket dated today
is reported incomplete and the bucket dated yesterday (today minus one
day) is reported complete. -/
theorem C7_daily_completeness_witness :
    is_period_complete ⟨2024, 3, 15⟩ ⟨2024, 3, 15⟩ "D" = false
    ∧ addDays ⟨2024, 3, 15⟩ (-1) = ⟨2024, 3, 14⟩
    ∧ is_period_complete ⟨2024, 3, 15⟩ (addDays ⟨2024, 3, 15⟩ (-1)) "D" = true := by
  refine ⟨(C7_daily_completeness ⟨2024, 3, 15⟩ ⟨2024, 3, 15⟩ (by decide)).mpr rfl,
    by decide, ?_⟩
  have h := C7_daily_completeness (addDays ⟨2024, 3, 15⟩ (-1)) ⟨2024, 3, 15⟩ (by decide)
  have hne : addDays ⟨2024, 3, 15⟩ (-1) ≠ (⟨2024, 3, 15⟩ : Date) := by decide
  cases hcc : is_period_complete ⟨2024, 3, 15⟩ (addDays ⟨2024, 3, 15⟩ (-1)) "D" with
  | false => exact absurd (h.mp hcc) hne
  | true => rfl

/-- C9: for every requested column not present in the aggregated data, the
chart renderer emits a user-visible warning, skips the chart, and returns
normally (the function is total, so the session is not crashed and other
widgets are unaffected). -/
theorem C9_unknown_column_warns_and_skips (df : DF)
    (column chart_type time_frame : String) (h : column ∉ df.cols) :
    create_metric_chart df column chart_type time_frame
      = [RenderEffect.warning
          ("Column \x27" ++ column ++ "\x27 not found for chart.")] := by
  unfold create_metric_chart
  rw [if_pos h]

/-- Witness for C9: requesting the absent column WATCH_TIME on the
concrete frame renders exactly the warning. -/
theorem C9_unknown_column_warns_and_skips_witness :
    "WATCH_TIME" ∉ exDF3.cols
    ∧ create_metric_chart exDF3 "WATCH_TIME" "Bar" "Daily"
        = [RenderEffect.warning "Column \x27WATCH_TIME\x27 not found for chart."] :=
  ⟨by decide,
    C9_unknown_column_warns_and_skips exDF3 "WATCH_TIME" "Bar" "Daily" (by decide)⟩

/-- C10: for every input date and every frequency string outside D, W, M,
Q, `is_period_complete` returns true (the period is treated as complete);
the function is total over all frequency strings, so it never raises. -/
theorem C10_default_freq_complete (today date : Date) (freq : String)
    (h1 : freq ≠ "D") (h2 : freq ≠ "W") (h3 : freq ≠ "M") (h4 : freq ≠ "Q") :
    is_period_complete today date freq = true := by
  unfold is_period_complete
  rw [if_neg h1, if_neg h2, if_neg h3, if_neg h4]

/-- Witness for C10 at the frequency string Hourly. -/
theorem C10_default_freq_complete_witness :
    ("Hourly" ≠ "D" ∧ "Hourly" ≠ "W" ∧ "Hourly" ≠ "M" ∧ "Hourly" ≠ "Q")
    ∧ is_period_complete ⟨2024, 1, 1⟩ ⟨2023, 12, 31⟩ "Hourly" = true :=
  ⟨⟨by decide, by decide, by decide, by decide⟩,
    C10_default_freq_complete ⟨2024, 1, 1⟩ ⟨2023, 12, 31⟩ "Hourly"
      (by decide) (by decide) (by decide) (by decide)⟩

/-- C8: navigation follows the state machine.  From the welcome page a
section button enters that section; an Open button on a section page
enters the metric page recording the originating section and the selected
metric slug; the back button on the metric page returns to the recorded
section and clears the selected metric; the back button on a section page
returns to welcome and clears the active section; and a click on a button
that is not rendered in the current state changes nothing (no other
transitions occur). -/
theorem C8_navigation_state_machine :
    (∀ s : NavState, s.page = "welcome" →
      nav_step s NavEvent.clickSection1
          = { s with page := "section_1", active_section := some "section_1" }
        ∧ nav_step s NavEvent.clickSection2
          = { s with page := "section_2", active_section := some "section_2" })
    ∧ (∀ (s : NavState) (title : String),
        (s.page = "section_1" →
          nav_step s (NavEvent.openMetric title "section_1")
            = { page := "metric", metric_page := some (metric_slug title),
                active_section := some "section_1" })
        ∧ (s.page = "section_2" →
          nav_step s (NavEvent.openMetric title "section_2")
            = { page := "metric", metric_page := some (metric_slug title),
                active_section := some "section_2" }))
    ∧ (∀ s : NavState, s.page = "metric" →
        (s.active_section = some "section_1" →
          nav_step s NavEvent.backToSection1
            = { s with page := "section_1", metric_page := none })
        ∧ (s.active_section = some "section_2" →
          nav_step s NavEvent.backToSection2
            = { s with page := "section_2", metric_page := none }))
    ∧ (∀ s : NavState, s.page = "section_1" ∨ s.page = "section_2" →
        nav_step s NavEvent.backToWelcome
          = { s with page := "welcome", active_section := none })
    ∧ (∀ s : NavState, s.page ≠ "welcome" →
        nav_step s NavEvent.clickSection1 = s
          ∧ nav_step s NavEvent.clickSection2 = s)
    ∧ (∀ s : NavState, ¬(s.page = "section_1" ∨ s.page = "section_2") →
        nav_step s NavEvent.backToWelcome = s)
    ∧ (∀ s : NavState, ¬(s.page = "metric" ∧ s.active_section = some "section_1") →
        nav_step s NavEvent.backToSection1 = s)
    ∧ (∀ s : NavState, ¬(s.page = "metric" ∧ s.active_section = some "section_2") →
        nav_step s NavEvent.backToSection2 = s)
    ∧ (∀ (s : NavState) (title sec : String),
        ¬((s.page = "section_1" ∧ sec = "section_1")
            ∨ (s.page = "section_2" ∧ sec = "section_2")) →
        nav_step s (NavEvent.openMetric title sec) = s) := by
  refine ⟨?_, ?_, ?_, ?_, ?_, ?_, ?_, ?_, ?_⟩
  · intro s h
    constructor <;> simp [nav_step, h]
  · intro s title
    constructor <;> intro h <;> simp [nav_step, h]
  · intro s h
    constructor <;> intro h2 <;> simp [nav_step, h, h2]
  · intro s h
    simp [nav_step, h]
  · intro s h
    constructor <;> simp [nav_step, h]
  · intro s h
    simp [nav_step, h]
  · intro s h
    simp [nav_step, h]
  · intro s h
    simp [nav_step, h]
  · intro s title sec h
    simp [nav_step, h]

/-- Witness for C8: the concrete navigation path of the spec, from welcome
into section 1, into the Total Views metric page, back to section 1
(metric cleared), and back to welcome (section cleared). -/
theorem C8_navigation_state_machine_witness :
    nav_step ⟨"welcome", none, none⟩ NavEvent.clickSection1
        = ⟨"section_1", none, some "section_1"⟩
    ∧ nav_step ⟨"section_1", none, some "section_1"⟩
          (NavEvent.openMetric "Total Views" "section_1")
        = ⟨"metric", some (metric_slug "Total Views"), some "section_1"⟩
    ∧ nav_step ⟨"metric", some (metric_slug "Total Views"), some "section_1"⟩
          NavEvent.backToSection1
        = ⟨"section_1", none, some "section_1"⟩
    ∧ nav_step ⟨"section_1", none, some "section_1"⟩ NavEvent.backToWelcome
        = ⟨"welcome", none, none⟩ := by
  refine ⟨(C8_navigation_state_machine.1 ⟨"welcome", none, none⟩ rfl).1, ?_, ?_, ?_⟩
  · exact (C8_navigation_state_machine.2.1 ⟨"section_1", none, some "section_1"⟩
      "Total Views").1 rfl
  · exact (C8_navigation_state_machine.2.2.1
      ⟨"metric", some (metric_slug "Total Views"), some "section_1"⟩ rfl).1 rfl
  · exact C8_navigation_state_machine.2.2.2.1 ⟨"section_1", none, some "section_1"⟩
      (Or.inl rfl)
